import Mathlib

/-
Verification of the Selector Resolution & Typed Action Execution subsystem
(src/ae/core/skills/playwright_actions and the interactive skills built on it).

Strings are modelled as lists of characters (`Str`); Python regular-expression
matching against the fixed pattern tables of selector_parser.py is modelled by
equivalent explicit character-level functions.  Fallible Python code (code that
can raise) is modelled with `Except`; Python truthiness of optional values is
modelled explicitly where the source relies on it.
-/

/-- Character strings of the Python source, modelled as lists of characters. -/
abbrev Str := List Char

/-- Whitespace characters recognised by Python regular-expression class \s and
by str.strip (ASCII range). -/
def isSpaceCh (c : Char) : Bool :=
  c = ' ' || c = '\t' || c = '\n' || c = '\r' || c = '\x0b' || c = '\x0c'

/-- Characters matched by the character class [a-zA-Z0-9_-] used throughout the
pattern tables of selector_parser.py. -/
def isTagChar (c : Char) : Bool :=
  c.isAlpha || c.isDigit || c = '_' || c = '-'

/-- Python str.strip(): remove leading and trailing whitespace. -/
def pyStrip (l : Str) : Str :=
  ((l.dropWhile isSpaceCh).reverse.dropWhile isSpaceCh).reverse

/-- SelectorParser.xpath_patterns (selector_parser.py lines 38-51): each entry
is an anchored literal prefix. -/
def xpathPrefixes : List Str :=
  ["//".data, "/html".data, "../".data, "ancestor::".data, "descendant::".data,
   "following::".data, "preceding::".data, "parent::".data, "child::".data,
   "self::".data, "attribute::".data, "namespace::".data]

/-- SelectorParser._is_xpath: re.match of any pattern in xpath_patterns. -/
def isXPath (l : Str) : Bool :=
  xpathPrefixes.any (fun p => p.isPrefixOf l)

/-- The regex ^#([a-zA-Z][a-zA-Z0-9_-]*)$ (the id attribute pattern); returns
the capture group on success. -/
def idPat : Str → Option Str
  | c0 :: c :: rest =>
    if c0 = '#' && c.isAlpha && rest.all isTagChar then some (c :: rest) else none
  | _ => none

/-- The regex ^\.([a-zA-Z][a-zA-Z0-9_-]*)$ (the class attribute pattern);
returns the capture group on success. -/
def classPat : Str → Option Str
  | c0 :: c :: rest =>
    if c0 = '.' && c.isAlpha && rest.all isTagChar then some (c :: rest) else none
  | _ => none

/-- The regex ^\[attr="([^"]+)"\]$ for a fixed attribute name, as in the
attribute_patterns table of selector_parser.py; returns the capture group. -/
def bracketPat (attr : Str) (l : Str) : Option Str :=
  let pre : Str := '[' :: (attr ++ ('=' :: '\x22' :: []))
  if pre.isPrefixOf l then
    let rest := l.drop pre.length
    let body := rest.takeWhile (fun c => c ≠ '\x22')
    if body.isEmpty then none
    else if rest.drop body.length = '\x22' :: ']' :: [] then some body else none
  else none

/-- The bracket-style attribute names of attribute_patterns, in the insertion
(iteration) order of the Python dict, after id and class. -/
def bracketAttrNames : List String :=
  ["name", "type", "value", "placeholder", "title", "alt", "src", "href"]

/-- The structured data a ParsedSelector carries.  Each constructor corresponds
to one of the five construction sites in selector_parser.py (the data dict of
_parse_xpath, _parse_attribute_selector, _parse_text_selector,
_parse_css_selector, _parse_tag_contains). -/
inductive PData where
  | xpath (value : Str)
  | attrVal (attr : Str) (value : Str)
  | text (value : Str)
  | css (value : Str)
  | tagContains (value : Str)
deriving DecidableEq

/-- The data dictionary of the ParsedSelector, keyed as in the source. -/
def PData.typeName : PData → String
  | .xpath _ => "xpathSelector"
  | .attrVal _ _ => "attributeValueSelector"
  | .text _ => "tagContainsSelector"
  | .css _ => "cssSelector"
  | .tagContains _ => "tagContainsSelector"

/-- Iteration of the bracket-style entries of attribute_patterns
(first match wins, as in _parse_attribute_selector). -/
def findBracket : List String → Str → Option PData
  | [], _ => none
  | a :: rest, l =>
    match bracketPat a.data l with
    | some v => some (.attrVal a.data v)
    | none => findBracket rest l

/-- SelectorParser._parse_attribute_selector: iterate attribute_patterns in
insertion order (id, class, then the bracket styles); id and class store the
value with the leading marker re-attached (f-strings at lines 159 and 169). -/
def parseAttributeSelector (l : Str) : Option PData :=
  match idPat l with
  | some v => some (.attrVal "id".data ('#' :: v))
  | none =>
    match classPat l with
    | some v => some (.attrVal "class".data ('.' :: v))
    | none => findBracket bracketAttrNames l

/-- SelectorParser.text_patterns: anchored prefixes. -/
def textPrefixes : List Str :=
  ["text=".data, "text:".data, "contains(text()".data, "normalize-space(text()".data]

/-- Whether any entry of text_patterns matches (re.match, i.e. prefix). -/
def textPrefixMatch (l : Str) : Bool :=
  textPrefixes.any (fun p => p.isPrefixOf l)

/-- Attempt the regex contains\(text\(\),\s*"([^"]+)" at the start of l
(one position of the re.search scan). -/
def tryContainsAt (l : Str) : Option Str :=
  let pre := "contains(text(),".data
  if pre.isPrefixOf l then
    let r := (l.drop pre.length).dropWhile isSpaceCh
    match r with
    | '\x22' :: rest =>
      let body := rest.takeWhile (fun c => c ≠ '\x22')
      if body.isEmpty then none
      else if ('\x22' :: []).isPrefixOf (rest.drop body.length) then some body else none
    | _ => none
  else none

/-- re.search of contains\(text\(\),\s*"([^"]+)": leftmost position wins. -/
def searchContains : Str → Option Str
  | [] => none
  | c :: rest =>
    match tryContainsAt (c :: rest) with
    | some v => some v
    | none => searchContains rest

/-- Attempt the regex normalize-space\(text\(\)\)\s*=\s*"([^"]+)" at the start
of l (one position of the re.search scan). -/
def tryNormAt (l : Str) : Option Str :=
  let pre := "normalize-space(text())".data
  if pre.isPrefixOf l then
    match (l.drop pre.length).dropWhile isSpaceCh with
    | '=' :: r2 =>
      match r2.dropWhile isSpaceCh with
      | '\x22' :: rest =>
        let body := rest.takeWhile (fun c => c ≠ '\x22')
        if body.isEmpty then none
        else if ('\x22' :: []).isPrefixOf (rest.drop body.length) then some body else none
      | _ => none
    | _ => none
  else none

/-- re.search of normalize-space\(text\(\)\)\s*=\s*"([^"]+)". -/
def searchNorm : Str → Option Str
  | [] => none
  | c :: rest =>
    match tryNormAt (c :: rest) with
    | some v => some v
    | none => searchNorm rest

/-- Python substring containment (the `in` operator on strings). -/
def isSubList (p : Str) : Str → Bool
  | [] => p.isEmpty
  | c :: rest => p.isPrefixOf (c :: rest) || isSubList p rest

/-- The if/elif chain inside _parse_text_selector that extracts the text
content once some text pattern has matched; `none` models the `continue`
paths (which, the chain being independent of the matched pattern, end with
the loop returning None). -/
def chainText (l : Str) : Option Str :=
  if ("text=".data).isPrefixOf l then some (l.drop 5)
  else if ("text:".data).isPrefixOf l then some (l.drop 5)
  else if isSubList "contains(text()".data l then searchContains l
  else if isSubList "normalize-space(text()".data l then searchNorm l
  else none

/-- SelectorParser._parse_text_selector; the data dict of the result carries
type tagContainsSelector. -/
def parseTextSelector (l : Str) : Option PData :=
  if textPrefixMatch l then (chainText l).map PData.text else none

/-- SelectorParser._is_css_selector: any of the nine css_patterns matches.
The nine patterns are the anchored forms ^[a-zA-Z][a-zA-Z0-9_-]*$,
^#[a-zA-Z][a-zA-Z0-9_-]*$, ^\.[a-zA-Z][a-zA-Z0-9_-]*$ and the prefix forms
tag name followed by one of [ : whitespace > + ~ .  Since none of those
terminator characters belongs to [a-zA-Z0-9_-], backtracking cannot help and
the prefix forms match exactly when the character after the maximal run of
tag characters is a terminator. -/
def cssMatch : Str → Bool
  | [] => false
  | c :: rest =>
    if c.isAlpha then
      match rest.dropWhile isTagChar with
      | [] => true
      | d :: _ => d = '[' || d = ':' || d = '>' || d = '+' || d = '~' || isSpaceCh d
    else if c = '#' then
      match rest with
      | r :: t => r.isAlpha && t.all isTagChar
      | [] => false
    else if c = '.' then
      match rest with
      | r :: t => r.isAlpha && t.all isTagChar
      | [] => false
    else false

/-- The body of SelectorParser.parse after the emptiness check: strip, then
try XPath, attribute, text, CSS in that order, with tagContainsSelector as
the final fallback. -/
def parseChars (l : Str) : PData :=
  let s := pyStrip l
  if isXPath s then .xpath s
  else
    match parseAttributeSelector s with
    | some p => p
    | none =>
      match parseTextSelector s with
      | some p => p
      | none => if cssMatch s then .css s else .tagContains s

/-- SelectorParser.parse: raises ValueError on an empty selector string,
otherwise classifies the stripped string. -/
def SelectorParser.parse (s : String) : Except Str PData :=
  if s = "" then .error "Selector string must be a non-empty string".data
  else .ok (parseChars s.data)

/-- SelectorParser.to_playwright_selector, on the data a ParsedSelector can
actually carry. -/
def toPlaywrightP : PData → Str
  | .xpath v => v
  | .attrVal a v =>
    if a = "id".data then
      (if ("#".data).isPrefixOf v then '#' :: v.drop 1 else '#' :: v)
    else if a = "class".data then
      (if (".".data).isPrefixOf v then '.' :: v.drop 1 else '.' :: v)
    else '[' :: (a ++ ('=' :: '\x22' :: (v ++ ['\x22', ']'])))
  | .text v => "text=".data ++ v
  | .css v => v
  | .tagContains v => v

/-- The selector kinds of action_classes.SelectorType. -/
inductive SelectorKind where
  | attributeValue
  | tagContains
  | xpath
deriving DecidableEq

/-- action_classes.Selector: a structured selector value. -/
structure Selector where
  type : SelectorKind
  value : Str
  attr : Option Str
deriving DecidableEq

/-- action_classes.Selector.from_string: parse the string with the
SelectorParser, map the data type through type_mapping (which has no entry
for cssSelector, so that case raises ValueError), and strip the leading
marker from id/class values. -/
def Selector.from_string (s : String) : Except Str Selector :=
  match SelectorParser.parse s with
  | .error e => .error e
  | .ok p =>
    match p with
    | .css _ => .error "Unsupported selector type: cssSelector".data
    | .xpath v => .ok ⟨.xpath, v, none⟩
    | .text v => .ok ⟨.tagContains, v, none⟩
    | .tagContains v => .ok ⟨.tagContains, v, none⟩
    | .attrVal a v =>
      let v2 :=
        if a = "id".data && ("#".data).isPrefixOf v then v.drop 1
        else if a = "class".data && (".".data).isPrefixOf v then v.drop 1
        else v
      .ok ⟨.attributeValue, v2, some a⟩

/-- No rule of SelectorParser.parse before the final fallback applies. -/
def noRuleMatches (l : Str) : Bool :=
  !isXPath l && (parseAttributeSelector l).isNone && (parseTextSelector l).isNone && !cssMatch l

/-- A whitespace character is never a tag character. -/
theorem space_not_tagChar {c : Char} (h : isSpaceCh c = true) : isTagChar c = false := by
  simp only [isSpaceCh, Bool.or_eq_true, decide_eq_true_eq] at h
  rcases h with ((((h | h) | h) | h) | h) | h <;> subst h <;> decide

/-- A tag character is never a whitespace character. -/
theorem tagChar_not_space {c : Char} (h : isTagChar c = true) : isSpaceCh c = false := by
  cases hs : isSpaceCh c
  · rfl
  · rw [space_not_tagChar hs] at h
    cases h

/-- An alphabetic character is never a whitespace character. -/
theorem alpha_not_space {c : Char} (h : c.isAlpha = true) : isSpaceCh c = false :=
  tagChar_not_space (by simp [isTagChar, h])

/-- str.strip leaves a string unchanged when neither end is whitespace. -/
theorem pyStrip_eq_self {l : Str}
    (h1 : ∀ c, l.head? = some c → isSpaceCh c = false)
    (h2 : ∀ c, l.getLast? = some c → isSpaceCh c = false) : pyStrip l = l := by
  cases l with
  | nil => rfl
  | cons a m =>
    have ha : isSpaceCh a = false := h1 a rfl
    have hrev : ∃ b r, (a :: m).reverse = b :: r := by
      cases hr : (a :: m).reverse with
      | nil =>
        have : (a :: m).reverse.length = 0 := by rw [hr]; rfl
        simp at this
      | cons b r => exact ⟨b, r, rfl⟩
    obtain ⟨b, r, hbr⟩ := hrev
    have hb : isSpaceCh b = false := by
      apply h2
      rw [← List.head?_reverse, hbr]
      rfl
    unfold pyStrip
    rw [List.dropWhile_cons, ha]
    simp only [Bool.false_eq_true, if_false]
    rw [hbr, List.dropWhile_cons, hb]
    simp only [Bool.false_eq_true, if_false]
    rw [← hbr, List.reverse_reverse]

/-- The last character of a marker-style shorthand (marker, alphabetic head,
tag-character tail) is never whitespace. -/
theorem getLast_marker_not_space {mk c : Char} {t : Str}
    (hc : c.isAlpha = true) (ht : t.all isTagChar = true) :
    ∀ d, (mk :: c :: t).getLast? = some d → isSpaceCh d = false := by
  intro d hd
  rw [← List.head?_reverse] at hd
  have hrw : (mk :: c :: t).reverse = t.reverse ++ ([c] ++ [mk]) := by simp
  rw [hrw] at hd
  cases hrev : t.reverse with
  | nil =>
    rw [hrev] at hd
    simp only [List.nil_append, List.cons_append, List.head?_cons, Option.some.injEq] at hd
    rw [← hd]
    exact alpha_not_space hc
  | cons b r =>
    rw [hrev] at hd
    simp only [List.cons_append, List.head?_cons, Option.some.injEq] at hd
    have hb : b ∈ t := by
      have hmem : b ∈ t.reverse := by rw [hrev]; exact List.mem_cons_self _ _
      simpa using hmem
    have htb : isTagChar b = true := List.all_eq_true.mp ht b hb
    rw [← hd]
    exact tagChar_not_space htb

/-- No XPath prefix starts with the id marker. -/
theorem isXPath_hash (rest : Str) : isXPath ('#' :: rest) = false := rfl

/-- No XPath prefix starts with an opening bracket. -/
theorem isXPath_bracket (rest : Str) : isXPath ('[' :: rest) = false := rfl

/-- The class shorthand (dot followed by an alphabetic character) matches no
XPath prefix: the only dot-initial prefix is "../", whose second character is
not alphabetic. -/
theorem isXPath_class {c : Char} (t : Str) (hc : c.isAlpha = true) :
    isXPath ('.' :: c :: t) = false := by
  have hne : ('.' == c) = false := by
    cases hb : ('.' == c)
    · rfl
    · have : '.' = c := by exact beq_iff_eq.mp hb
      rw [← this] at hc
      exact absurd hc (by decide)
  simp [isXPath, xpathPrefixes, List.isPrefixOf, hne]

/-- C4: for every locator string matching the id shorthand #name (resp. the
class shorthand .name), the classifier stores the value with the leading
marker retained (the stored value is the original string), and
to_playwright_selector maps the parse result back to the original string. -/
theorem c4_marker_retained_roundtrip (l : Str) :
    (∀ g, idPat l = some g →
      parseChars l = PData.attrVal "id".data l ∧ toPlaywrightP (parseChars l) = l) ∧
    (∀ g, classPat l = some g →
      parseChars l = PData.attrVal "class".data l ∧ toPlaywrightP (parseChars l) = l) := by
  constructor
  · intro g hid
    rcases l with _ | ⟨c0, _ | ⟨c, t⟩⟩
    · simp [idPat] at hid
    · simp [idPat] at hid
    · by_cases hcond : (c0 = '#' && c.isAlpha && t.all isTagChar) = true
      · simp only [Bool.and_eq_true, decide_eq_true_eq] at hcond
        obtain ⟨⟨hc0, hca⟩, hct⟩ := hcond
        subst hc0
        have hstrip : pyStrip ('#' :: c :: t) = '#' :: c :: t :=
          pyStrip_eq_self
            (fun d hd => by
              simp only [List.head?_cons, Option.some.injEq] at hd
              rw [← hd]; decide)
            (getLast_marker_not_space hca hct)
        have hidp : idPat ('#' :: c :: t) = some (c :: t) := by
          simp [idPat, hca, hct]
        have hparse : parseChars ('#' :: c :: t) = PData.attrVal "id".data ('#' :: c :: t) := by
          unfold parseChars
          rw [hstrip]
          simp only [isXPath_hash, Bool.false_eq_true, if_false]
          unfold parseAttributeSelector
          rw [hidp]
        refine ⟨hparse, ?_⟩
        rw [hparse]
        rfl
      · simp only [idPat, hcond] at hid
        simp at hid
  · intro g hcl
    rcases l with _ | ⟨c0, _ | ⟨c, t⟩⟩
    · simp [classPat] at hcl
    · simp [classPat] at hcl
    · by_cases hcond : (c0 = '.' && c.isAlpha && t.all isTagChar) = true
      · simp only [Bool.and_eq_true, decide_eq_true_eq] at hcond
        obtain ⟨⟨hc0, hca⟩, hct⟩ := hcond
        subst hc0
        have hstrip : pyStrip ('.' :: c :: t) = '.' :: c :: t :=
          pyStrip_eq_self
            (fun d hd => by
              simp only [List.head?_cons, Option.some.injEq] at hd
              rw [← hd]; decide)
            (getLast_marker_not_space hca hct)
        have hidp : idPat ('.' :: c :: t) = none := by
          simp [idPat]
        have hclp : classPat ('.' :: c :: t) = some (c :: t) := by
          simp [classPat, hca, hct]
        have hparse : parseChars ('.' :: c :: t) = PData.attrVal "class".data ('.' :: c :: t) := by
          unfold parseChars
          rw [hstrip]
          simp only [isXPath_class t hca, Bool.false_eq_true, if_false]
          unfold parseAttributeSelector
          rw [hidp, hclp]
        refine ⟨hparse, ?_⟩
        rw [hparse]
        rfl
      · simp only [classPat, hcond] at hcl
        simp at hcl

/-- Witness for C4 at the concrete shorthands #foo and .btn. -/
theorem c4_marker_retained_roundtrip_witness :
    parseChars "#foo".data = PData.attrVal "id".data "#foo".data ∧
    toPlaywrightP (parseChars "#foo".data) = "#foo".data ∧
    parseChars ".btn".data = PData.attrVal "class".data ".btn".data ∧
    toPlaywrightP (parseChars ".btn".data) = ".btn".data := by
  obtain ⟨h1, h2⟩ := (c4_marker_retained_roundtrip "#foo".data).1 "foo".data (by decide)
  obtain ⟨h3, h4⟩ := (c4_marker_retained_roundtrip ".btn".data).2 "btn".data (by decide)
  exact ⟨h1, h2, h3, h4⟩

/-- C2 counterexample: classify("random text") does not produce a TagContains
selector; the string matches the CSS descendant pattern (tag name followed by
whitespace), so the parser yields a cssSelector and Selector.from_string
raises an unsupported-selector-type error. -/
theorem c2_random_text_not_tagContains :
    SelectorParser.parse "random text" ≠ .ok (PData.tagContains "random text".data) ∧
    Selector.from_string "random text" =
      .error "Unsupported selector type: cssSelector".data := by
  constructor
  · intro h
    have hv : SelectorParser.parse "random text" = .ok (PData.css "random text".data) := rfl
    rw [hv] at h
    simp at h
  · rfl

/-- C2 (amended): classify("#foo") yields AttributeValue(id, "foo") and
classify("//div") yields XPath("//div") as stated; classify("random text")
however matches the CSS descendant pattern before the fallback, yielding a
cssSelector at the parser level, which Selector.from_string rejects. -/
theorem c2_classifier_precedence_examples :
    Selector.from_string "#foo" = .ok ⟨.attributeValue, "foo".data, some "id".data⟩ ∧
    Selector.from_string "//div" = .ok ⟨.xpath, "//div".data, none⟩ ∧
    SelectorParser.parse "random text" = .ok (PData.css "random text".data) ∧
    Selector.from_string "random text" =
      .error "Unsupported selector type: cssSelector".data :=
  ⟨rfl, rfl, rfl, rfl⟩

/-- C3 counterexample: "button" is a non-empty locator string on which
classification into a structured Selector fails: it matches the simple
tag-name CSS pattern, and Selector.from_string raises ValueError on the
resulting cssSelector. -/
theorem c3_button_classification_raises :
    Selector.from_string "button" =
      .error "Unsupported selector type: cssSelector".data := rfl

/-- C3 (amended): parsing is total on non-empty strings; the TagContains
fallback applies exactly to strings matched by none of the XPath, attribute,
text, and CSS rule families and stores the whitespace-stripped input; strings
classified as CSS selectors make Selector.from_string raise an
unsupported-selector-type error. -/
theorem c3_classification_totality_and_fallback :
    (∀ s : String, s ≠ "" → ∃ p, SelectorParser.parse s = .ok p) ∧
    (∀ s : String, s ≠ "" → noRuleMatches (pyStrip s.data) = true →
      SelectorParser.parse s = .ok (PData.tagContains (pyStrip s.data))) ∧
    (∀ (s : String) (v : Str), SelectorParser.parse s = .ok (PData.css v) →
      Selector.from_string s =
        .error "Unsupported selector type: cssSelector".data) := by
  refine ⟨?_, ?_, ?_⟩
  · intro s hs
    exact ⟨parseChars s.data, by simp [SelectorParser.parse, hs]⟩
  · intro s hs hno
    simp only [noRuleMatches, Bool.and_eq_true, Bool.not_eq_true',
      Option.isNone_iff_eq_none] at hno
    obtain ⟨⟨⟨hx, hattr⟩, htext⟩, hcss⟩ := hno
    simp only [SelectorParser.parse, hs, if_false]
    unfold parseChars
    simp only [hx, hattr, htext, hcss, Bool.false_eq_true, if_false]
  · intro s v h
    unfold Selector.from_string
    rw [h]

/-- Witness for C3 at concrete inputs: "@foo" matches no rule and falls back
to TagContains; "button" is classified as CSS and rejected by from_string. -/
theorem c3_classification_totality_and_fallback_witness :
    SelectorParser.parse "@foo" = .ok (PData.tagContains (pyStrip "@foo".data)) ∧
    Selector.from_string "button" =
      .error "Unsupported selector type: cssSelector".data :=
  ⟨c3_classification_totality_and_fallback.2.1 "@foo" (by decide) (by decide),
   c3_classification_totality_and_fallback.2.2 "button" "button".data rfl⟩

/-- JSON-like wire values of the action dictionaries.  Numeric payloads that
the source merely stores and copies (never computes with) are carried as
integers (click coordinates) and rationals (wait durations). -/
inductive JVal where
  | null
  | str (s : Str)
  | int (n : Int)
  | num (q : Rat)
  | bool (b : Bool)
  | obj (fields : List (String × JVal))

/-- A Python dict with string keys, as produced by the to_dict methods. -/
abbrev JDict := List (String × JVal)

/-- dict.get(key): first binding wins (the source dicts never repeat keys). -/
def jget : JDict → String → Option JVal
  | [], _ => none
  | (k, v) :: rest, key => if k = key then some v else jget rest key

/-- Python truthiness of a value that may be absent (dict.get misses are
None, which is falsy). -/
def jTruthy : Option JVal → Bool
  | none => false
  | some .null => false
  | some (.str s) => !s.isEmpty
  | some (.int n) => n != 0
  | some (.num q) => q != 0
  | some (.bool b) => b
  | some (.obj d) => !d.isEmpty

/-- The wire name of each action_classes.SelectorType member. -/
def SelectorKind.wireName : SelectorKind → String
  | .attributeValue => "attributeValueSelector"
  | .tagContains => "tagContainsSelector"
  | .xpath => "xpathSelector"

/-- action_classes.Selector.to_dict: type and value always, attribute only
when truthy. -/
def Selector.to_dict (s : Selector) : JDict :=
  [("type", JVal.str s.type.wireName.data), ("value", JVal.str s.value)] ++
    (match s.attr with
     | some a => if a.isEmpty then [] else [("attribute", JVal.str a)]
     | none => [])

/-- The SelectorType(value) enum constructor: raises ValueError for a string
that names no member. -/
def selectorKindOfString (s : Str) : Except Str SelectorKind :=
  if s = "attributeValueSelector".data then .ok .attributeValue
  else if s = "tagContainsSelector".data then .ok .tagContains
  else if s = "xpathSelector".data then .ok .xpath
  else .error ("is not a valid SelectorType: ".data ++ s)

/-- action_classes.Selector.from_dict: data["type"] and data["value"] are
required lookups (KeyError when missing), data.get("attribute") defaults to
None.  The source performs no runtime type check on the payloads; the model
restricts the wire to type-correct values, which covers every dictionary the
encoders and the classifier produce. -/
def Selector.from_dict (d : JDict) : Except Str Selector :=
  match jget d "type" with
  | some (JVal.str ts) =>
    match selectorKindOfString ts with
    | .error e => .error e
    | .ok t =>
      match jget d "value" with
      | some (JVal.str v) =>
        .ok { type := t, value := v,
              attr := match jget d "attribute" with
                      | some (JVal.str a) => some a
                      | _ => none }
      | some _ => .error "TypeError: selector value is not a string".data
      | none => .error "KeyError: value".data
  | some _ => .error "TypeError: selector type is not a string".data
  | none => .error "KeyError: type".data

/-- The 13 action variants of action_classes.py, with the payload fields of
the corresponding dataclasses. -/
inductive WebAction where
  | click (selector : Option Selector) (x y : Option Int)
  | doubleClick (selector : Option Selector)
  | navigate (url : Option Str) (go_back go_forward : Bool)
  | typeAction (selector : Option Selector) (text : Str)
  | select (selector : Option Selector) (value : Str)
  | hover (selector : Option Selector)
  | wait (time_seconds : Rat)
  | scroll (selector : Option Selector) (value : Str) (up down : Bool)
  | submit (selector : Option Selector)
  | dragAndDrop (source_selector target_selector : Option Selector)
  | screenshot (file_path : Str)
  | getDropDownOptions (selector : Option Selector)
  | selectDropDownOption (selector : Option Selector) (text : Str)
deriving DecidableEq

/-- The "selector" entry every to_dict emits: the selector dict when present,
JSON null otherwise. -/
def optSelDict : Option Selector → JVal
  | some s => .obj s.to_dict
  | none => .null

/-- The to_dict methods of the 13 action classes, in source order of keys;
optional fields are emitted only under the source conditions (x/y when not
None, url when truthy, go_back/go_forward/up/down when True). -/
def WebAction.to_dict : WebAction → JDict
  | .click sel x y =>
    [("type", JVal.str "click".data), ("selector", optSelDict sel)] ++
      (match x with | some n => [("x", JVal.int n)] | none => []) ++
      (match y with | some n => [("y", JVal.int n)] | none => [])
  | .doubleClick sel =>
    [("type", JVal.str "doubleClick".data), ("selector", optSelDict sel)]
  | .navigate url gb gf =>
    [("type", JVal.str "navigate".data), ("selector", JVal.null)] ++
      (match url with
       | some u => if u.isEmpty then [] else [("url", JVal.str u)]
       | none => []) ++
      (if gb then [("go_back", JVal.bool true)] else []) ++
      (if gf then [("go_forward", JVal.bool true)] else [])
  | .typeAction sel text =>
    [("type", JVal.str "type".data), ("selector", optSelDict sel),
     ("text", JVal.str text)]
  | .select sel v =>
    [("type", JVal.str "select".data), ("selector", optSelDict sel),
     ("value", JVal.str v)]
  | .hover sel =>
    [("type", JVal.str "hover".data), ("selector", optSelDict sel)]
  | .wait t =>
    [("type", JVal.str "wait".data), ("selector", JVal.null),
     ("time_seconds", JVal.num t)]
  | .scroll sel v up down =>
    [("type", JVal.str "scroll".data), ("selector", optSelDict sel),
     ("value", JVal.str v)] ++
      (if up then [("up", JVal.bool true)] else []) ++
      (if down then [("down", JVal.bool true)] else [])
  | .submit sel =>
    [("type", JVal.str "submit".data), ("selector", optSelDict sel)]
  | .dragAndDrop src tgt =>
    [("type", JVal.str "dragAndDrop".data), ("selector", optSelDict tgt),
     ("source_selector", optSelDict src), ("target_selector", optSelDict tgt)]
  | .screenshot fp =>
    [("type", JVal.str "screenshot".data), ("selector", JVal.null),
     ("file_path", JVal.str fp)]
  | .getDropDownOptions sel =>
    [("type", JVal.str "getDropDownOptions".data), ("selector", optSelDict sel)]
  | .selectDropDownOption sel text =>
    [("type", JVal.str "selectDropDownOption".data), ("selector", optSelDict sel),
     ("text", JVal.str text)]

/-- The idiom selector_data = data.get(key); Selector.from_dict(selector_data)
if selector_data else None, shared by all variant from_dict methods. -/
def selFromData (d : JDict) (key : String) : Except Str (Option Selector) :=
  match jget d key with
  | none => .ok none
  | some v =>
    if jTruthy (some v) then
      match v with
      | .obj sd => (Selector.from_dict sd).map some
      | _ => .error "TypeError: selector data is not a dict".data
    else .ok none

/-- data.get(key, default) for a string field. -/
def getStrD (d : JDict) (key : String) (dflt : Str) : Except Str Str :=
  match jget d key with
  | some (JVal.str s) => .ok s
  | none => .ok dflt
  | some _ => .error "TypeError: expected a string".data

/-- data.get(key) for an optional string field. -/
def getStrOpt (d : JDict) (key : String) : Except Str (Option Str) :=
  match jget d key with
  | some (JVal.str s) => .ok (some s)
  | none => .ok none
  | some _ => .error "TypeError: expected a string".data

/-- data.get(key) for an optional integer field. -/
def getIntOpt (d : JDict) (key : String) : Except Str (Option Int) :=
  match jget d key with
  | some (JVal.int n) => .ok (some n)
  | none => .ok none
  | some _ => .error "TypeError: expected an integer".data

/-- data.get(key, default) for a boolean field. -/
def getBoolD (d : JDict) (key : String) (dflt : Bool) : Except Str Bool :=
  match jget d key with
  | some (JVal.bool b) => .ok b
  | none => .ok dflt
  | some _ => .error "TypeError: expected a boolean".data

/-- data.get(key, default) for a numeric field. -/
def getNumD (d : JDict) (key : String) (dflt : Rat) : Except Str Rat :=
  match jget d key with
  | some (JVal.num q) => .ok q
  | none => .ok dflt
  | some _ => .error "TypeError: expected a number".data

/-- ClickAction.from_dict. -/
def ClickAction.from_dict (d : JDict) : Except Str WebAction :=
  match selFromData d "selector" with
  | .error e => .error e
  | .ok sel =>
    match getIntOpt d "x" with
    | .error e => .error e
    | .ok x =>
      match getIntOpt d "y" with
      | .error e => .error e
      | .ok y => .ok (.click sel x y)

/-- DoubleClickAction.from_dict. -/
def DoubleClickAction.from_dict (d : JDict) : Except Str WebAction :=
  match selFromData d "selector" with
  | .error e => .error e
  | .ok sel => .ok (.doubleClick sel)

/-- NavigateAction.from_dict. -/
def NavigateAction.from_dict (d : JDict) : Except Str WebAction :=
  match getStrOpt d "url" with
  | .error e => .error e
  | .ok url =>
    match getBoolD d "go_back" false with
    | .error e => .error e
    | .ok gb =>
      match getBoolD d "go_forward" false with
      | .error e => .error e
      | .ok gf => .ok (.navigate url gb gf)

/-- TypeAction.from_dict: text = data.get("text", "") silently defaults. -/
def TypeAction.from_dict (d : JDict) : Except Str WebAction :=
  match selFromData d "selector" with
  | .error e => .error e
  | .ok sel =>
    match getStrD d "text" [] with
    | .error e => .error e
    | .ok text => .ok (.typeAction sel text)

/-- SelectAction.from_dict. -/
def SelectAction.from_dict (d : JDict) : Except Str WebAction :=
  match selFromData d "selector" with
  | .error e => .error e
  | .ok sel =>
    match getStrD d "value" [] with
    | .error e => .error e
    | .ok v => .ok (.select sel v)

/-- HoverAction.from_dict. -/
def HoverAction.from_dict (d : JDict) : Except Str WebAction :=
  match selFromData d "selector" with
  | .error e => .error e
  | .ok sel => .ok (.hover sel)

/-- WaitAction.from_dict: time_seconds defaults to 1.0. -/
def WaitAction.from_dict (d : JDict) : Except Str WebAction :=
  match getNumD d "time_seconds" 1 with
  | .error e => .error e
  | .ok t => .ok (.wait t)

/-- ScrollAction.from_dict. -/
def ScrollAction.from_dict (d : JDict) : Except Str WebAction :=
  match selFromData d "selector" with
  | .error e => .error e
  | .ok sel =>
    match getStrD d "value" [] with
    | .error e => .error e
    | .ok v =>
      match getBoolD d "up" false with
      | .error e => .error e
      | .ok up =>
        match getBoolD d "down" false with
        | .error e => .error e
        | .ok down => .ok (.scroll sel v up down)

/-- SubmitAction.from_dict. -/
def SubmitAction.from_dict (d : JDict) : Except Str WebAction :=
  match selFromData d "selector" with
  | .error e => .error e
  | .ok sel => .ok (.submit sel)

/-- DragAndDropAction.from_dict: reads source_selector and target_selector
(not the top-level selector key, which mirrors the target). -/
def DragAndDropAction.from_dict (d : JDict) : Except Str WebAction :=
  match selFromData d "source_selector" with
  | .error e => .error e
  | .ok src =>
    match selFromData d "target_selector" with
    | .error e => .error e
    | .ok tgt => .ok (.dragAndDrop src tgt)

/-- ScreenshotAction.from_dict. -/
def ScreenshotAction.from_dict (d : JDict) : Except Str WebAction :=
  match getStrD d "file_path" [] with
  | .error e => .error e
  | .ok fp => .ok (.screenshot fp)

/-- GetDropDownOptionsAction.from_dict. -/
def GetDropDownOptionsAction.from_dict (d : JDict) : Except Str WebAction :=
  match selFromData d "selector" with
  | .error e => .error e
  | .ok sel => .ok (.getDropDownOptions sel)

/-- SelectDropDownOptionAction.from_dict. -/
def SelectDropDownOptionAction.from_dict (d : JDict) : Except Str WebAction :=
  match selFromData d "selector" with
  | .error e => .error e
  | .ok sel =>
    match getStrD d "text" [] with
    | .error e => .error e
    | .ok text => .ok (.selectDropDownOption sel text)

/-- The 13 discriminant tags registered in ActionFactory._action_classes. -/
def knownActionTags : List Str :=
  ["click".data, "doubleClick".data, "navigate".data, "type".data,
   "select".data, "hover".data, "wait".data, "scroll".data, "submit".data,
   "dragAndDrop".data, "screenshot".data, "getDropDownOptions".data,
   "selectDropDownOption".data]

/-- ActionFactory.create_action: dispatch on data.get("type"); an unregistered
tag raises ValueError("Unknown action type: ...").  A missing or non-string
tag is likewise not a registered key and raises the same error. -/
def ActionFactory.create_action (d : JDict) : Except Str WebAction :=
  match jget d "type" with
  | some (JVal.str t) =>
    if t = "click".data then ClickAction.from_dict d
    else if t = "doubleClick".data then DoubleClickAction.from_dict d
    else if t = "navigate".data then NavigateAction.from_dict d
    else if t = "type".data then TypeAction.from_dict d
    else if t = "select".data then SelectAction.from_dict d
    else if t = "hover".data then HoverAction.from_dict d
    else if t = "wait".data then WaitAction.from_dict d
    else if t = "scroll".data then ScrollAction.from_dict d
    else if t = "submit".data then SubmitAction.from_dict d
    else if t = "dragAndDrop".data then DragAndDropAction.from_dict d
    else if t = "screenshot".data then ScreenshotAction.from_dict d
    else if t = "getDropDownOptions".data then GetDropDownOptionsAction.from_dict d
    else if t = "selectDropDownOption".data then SelectDropDownOptionAction.from_dict d
    else .error ("Unknown action type: ".data ++ t)
  | _ => .error "Unknown action type: None".data

/-- Well-formedness of a structured selector, per the data-model invariant:
an AttributeValue selector carries a (non-empty) attribute name; other kinds
carry none. -/
def SelWF (s : Selector) : Prop :=
  match s.type with
  | .attributeValue => ∃ a, s.attr = some a ∧ a ≠ []
  | _ => s.attr = none

/-- Well-formedness of an optional selector field. -/
def OptSelWF : Option Selector → Prop
  | none => True
  | some s => SelWF s

/-- Well-formedness of an action: every carried selector is well-formed, and
a navigate URL, when present, is non-empty (the encoder drops falsy URLs). -/
def ActionWF : WebAction → Prop
  | .click sel _ _ => OptSelWF sel
  | .doubleClick sel => OptSelWF sel
  | .navigate url _ _ => url ≠ some []
  | .typeAction sel _ => OptSelWF sel
  | .select sel _ => OptSelWF sel
  | .hover sel => OptSelWF sel
  | .wait _ => True
  | .scroll sel _ _ _ => OptSelWF sel
  | .submit sel => OptSelWF sel
  | .dragAndDrop src tgt => OptSelWF src ∧ OptSelWF tgt
  | .screenshot _ => True
  | .getDropDownOptions sel => OptSelWF sel
  | .selectDropDownOption sel _ => OptSelWF sel

/-- Decoding inverts encoding on well-formed structured selectors. -/
theorem selector_from_dict_to_dict (s : Selector) (h : SelWF s) :
    Selector.from_dict s.to_dict = .ok s := by
  obtain ⟨t, v, a⟩ := s
  cases t
  · obtain ⟨b, hb, hbne⟩ := h
    simp only at hb
    subst hb
    have hbe : b.isEmpty = false := by
      cases hbm : b.isEmpty
      · rfl
      · exact absurd (List.isEmpty_iff.mp hbm) hbne
    simp [Selector.to_dict, Selector.from_dict, jget, selectorKindOfString,
      SelectorKind.wireName, hbe]
  · have ha : a = none := h
    subst ha
    simp [Selector.to_dict, Selector.from_dict, jget, selectorKindOfString,
      SelectorKind.wireName]
  · have ha : a = none := h
    subst ha
    simp [Selector.to_dict, Selector.from_dict, jget, selectorKindOfString,
      SelectorKind.wireName]

/-- The shared selector-decoding idiom inverts the shared selector-encoding
idiom on well-formed optional selectors. -/
theorem selFromData_optSelDict (d : JDict) (key : String) (sel : Option Selector)
    (hw : OptSelWF sel) (hg : jget d key = some (optSelDict sel)) :
    selFromData d key = .ok sel := by
  cases sel with
  | none =>
    simp [selFromData, hg, optSelDict, jTruthy]
  | some s =>
    have hne : (Selector.to_dict s).isEmpty = false := by
      obtain ⟨t, v, a⟩ := s
      simp [Selector.to_dict]
    simp [selFromData, hg, optSelDict, jTruthy, hne,
      selector_from_dict_to_dict s hw, Except.map]

/-- Every variant dict opens with the type tag and the selector entry; the
selector entry decodes back to the encoded optional selector. -/
theorem selFromData_snd (t : JVal) (sel : Option Selector) (rest : JDict)
    (hw : OptSelWF sel) :
    selFromData (("type", t) :: ("selector", optSelDict sel) :: rest) "selector" =
      Except.ok sel :=
  selFromData_optSelDict _ _ sel hw (by simp [jget])

/-- Decoding the source selector of an encoded drag-and-drop dict. -/
theorem selFromData_dnd_src (t : JVal) (src tgt : Option Selector)
    (hw : OptSelWF src) :
    selFromData (("type", t) :: ("selector", optSelDict tgt) ::
        ("source_selector", optSelDict src) :: ("target_selector", optSelDict tgt) :: [])
      "source_selector" = Except.ok src :=
  selFromData_optSelDict _ _ src hw (by simp [jget])

/-- Decoding the target selector of an encoded drag-and-drop dict. -/
theorem selFromData_dnd_tgt (t : JVal) (src tgt : Option Selector)
    (hw : OptSelWF tgt) :
    selFromData (("type", t) :: ("selector", optSelDict tgt) ::
        ("source_selector", optSelDict src) :: ("target_selector", optSelDict tgt) :: [])
      "target_selector" = Except.ok tgt :=
  selFromData_optSelDict _ _ tgt hw (by simp [jget])

/-- C1: for every well-formed action of each of the 13 variants, decoding the
encoding yields the action back: ActionFactory.create_action (a.to_dict) = a. -/
theorem create_action_to_dict_roundtrip (a : WebAction) (h : ActionWF a) :
    ActionFactory.create_action a.to_dict = .ok a := by
  cases a with
  | click sel x y =>
    have hw : OptSelWF sel := h
    cases x <;> cases y <;>
      simp [WebAction.to_dict, ActionFactory.create_action, ClickAction.from_dict,
        jget, getIntOpt, selFromData_snd, hw]
  | doubleClick sel =>
    have hw : OptSelWF sel := h
    simp [WebAction.to_dict, ActionFactory.create_action, DoubleClickAction.from_dict,
      jget, selFromData_snd, hw]
  | navigate url gb gf =>
    have hu : url ≠ some [] := h
    cases url with
    | none =>
      cases gb <;> cases gf <;>
        simp [WebAction.to_dict, ActionFactory.create_action, NavigateAction.from_dict,
          jget, getStrOpt, getBoolD]
    | some u =>
      have hue : u.isEmpty = false := by
        cases hm : u.isEmpty
        · rfl
        · exact absurd (by rw [List.isEmpty_iff.mp hm]) hu
      cases gb <;> cases gf <;>
        simp [WebAction.to_dict, ActionFactory.create_action, NavigateAction.from_dict,
          jget, getStrOpt, getBoolD, hue]
  | typeAction sel text =>
    have hw : OptSelWF sel := h
    simp [WebAction.to_dict, ActionFactory.create_action, TypeAction.from_dict,
      jget, getStrD, selFromData_snd, hw]
  | select sel v =>
    have hw : OptSelWF sel := h
    simp [WebAction.to_dict, ActionFactory.create_action, SelectAction.from_dict,
      jget, getStrD, selFromData_snd, hw]
  | hover sel =>
    have hw : OptSelWF sel := h
    simp [WebAction.to_dict, ActionFactory.create_action, HoverAction.from_dict,
      jget, selFromData_snd, hw]
  | wait t =>
    simp [WebAction.to_dict, ActionFactory.create_action, WaitAction.from_dict,
      jget, getNumD]
  | scroll sel v up down =>
    have hw : OptSelWF sel := h
    cases up <;> cases down <;>
      simp [WebAction.to_dict, ActionFactory.create_action, ScrollAction.from_dict,
        jget, getStrD, getBoolD, selFromData_snd, hw]
  | submit sel =>
    have hw : OptSelWF sel := h
    simp [WebAction.to_dict, ActionFactory.create_action, SubmitAction.from_dict,
      jget, selFromData_snd, hw]
  | dragAndDrop src tgt =>
    obtain ⟨hws, hwt⟩ := h
    simp [WebAction.to_dict, ActionFactory.create_action, DragAndDropAction.from_dict,
      jget, selFromData_dnd_src, selFromData_dnd_tgt, hws, hwt]
  | screenshot fp =>
    simp [WebAction.to_dict, ActionFactory.create_action, ScreenshotAction.from_dict,
      jget, getStrD]
  | getDropDownOptions sel =>
    have hw : OptSelWF sel := h
    simp [WebAction.to_dict, ActionFactory.create_action,
      GetDropDownOptionsAction.from_dict, jget, selFromData_snd, hw]
  | selectDropDownOption sel text =>
    have hw : OptSelWF sel := h
    simp [WebAction.to_dict, ActionFactory.create_action,
      SelectDropDownOptionAction.from_dict, jget, getStrD, selFromData_snd, hw]

/-- Witness for C1: a concrete well-formed TypeAction round-trips (the
end-to-end scenario of the spec: AttributeValue(name, "email") with text
a@b.com). -/
theorem create_action_to_dict_roundtrip_witness :
    ActionWF (WebAction.typeAction
      (some ⟨.attributeValue, "email".data, some "name".data⟩) "a@b.com".data) ∧
    ActionFactory.create_action
      (WebAction.typeAction
        (some ⟨.attributeValue, "email".data, some "name".data⟩) "a@b.com".data).to_dict =
      .ok (WebAction.typeAction
        (some ⟨.attributeValue, "email".data, some "name".data⟩) "a@b.com".data) := by
  have hwf : ActionWF (WebAction.typeAction
      (some ⟨.attributeValue, "email".data, some "name".data⟩) "a@b.com".data) :=
    ⟨"name".data, rfl, by decide⟩
  exact ⟨hwf, create_action_to_dict_roundtrip _ hwf⟩

/-- C9 counterexample: decoding a type action whose required "text" field is
missing does not raise; TypeAction.from_dict silently defaults the text to ""
(and the absent selector to None), producing a default-valued action. -/
theorem c9_missing_field_silently_defaults :
    ActionFactory.create_action [("type", JVal.str "type".data)] =
      .ok (WebAction.typeAction none []) := rfl

/-- C9 (amended): an unrecognized type discriminant raises the descriptive
unknown-action-type ValueError, but a wire object missing a variant field is
not rejected: the variant decoders fill missing fields with defaults (for a
type action, text becomes the empty string). -/
theorem c9_unknown_tag_raises_missing_field_defaults :
    (∀ (d : JDict) (t : Str), jget d "type" = some (JVal.str t) →
      t ∉ knownActionTags →
      ActionFactory.create_action d = .error ("Unknown action type: ".data ++ t)) ∧
    ActionFactory.create_action [("type", JVal.str "type".data)] =
      .ok (WebAction.typeAction none []) := by
  constructor
  · intro d t hg hmem
    simp only [knownActionTags, List.mem_cons, List.not_mem_nil, or_false,
      not_or] at hmem
    obtain ⟨h1, h2, h3, h4, h5, h6, h7, h8, h9, h10, h11, h12, h13⟩ := hmem
    simp [ActionFactory.create_action, hg, h1, h2, h3, h4, h5, h6, h7, h8, h9,
      h10, h11, h12, h13]
  · rfl

/-- Witness for C9 at a concrete unrecognized tag. -/
theorem c9_unknown_tag_raises_witness :
    ActionFactory.create_action [("type", JVal.str "frobnicate".data)] =
      .error ("Unknown action type: ".data ++ "frobnicate".data) :=
  c9_unknown_tag_raises_missing_field_defaults.1 _ "frobnicate".data rfl (by decide)

/-- The data dictionary a ParsedSelector carries (selector_parser.py), as a
wire dict, with the key order of the source construction sites. -/
def PData.toData : PData → JDict
  | .xpath v => [("type", JVal.str "xpathSelector".data), ("value", JVal.str v)]
  | .attrVal a v =>
    [("type", JVal.str "attributeValueSelector".data),
     ("attribute", JVal.str a), ("value", JVal.str v)]
  | .text v => [("type", JVal.str "tagContainsSelector".data), ("value", JVal.str v)]
  | .css v => [("type", JVal.str "cssSelector".data), ("value", JVal.str v)]
  | .tagContains v =>
    [("type", JVal.str "tagContainsSelector".data), ("value", JVal.str v)]

/-- The per-type validation rules of playwright_actions.validate_selector,
applied once the type discriminant string is in hand:
attributeValueSelector requires attribute in id/class/name; tagContainsSelector
needs nothing more; xpathSelector requires the value to start with / (or //);
any other type is invalid. -/
def validateSelectorTyped (d : JDict) (t : Str) : Bool :=
  if t = "attributeValueSelector".data then
    match jget d "attribute" with
    | some (JVal.str a) =>
      a = "id".data || a = "class".data || a = "name".data
    | some _ => false
    | none => false
  else if t = "tagContainsSelector".data then true
  else if t = "xpathSelector".data then
    match jget d "value" with
    | some (JVal.str v) =>
      ("/".data).isPrefixOf v || ("//".data).isPrefixOf v
    | _ => false
  else false

/-- playwright_actions.validate_selector: type and value fields are required,
then the per-type rules of validateSelectorTyped apply. -/
def validate_selector (d : JDict) : Bool :=
  if (jget d "type").isNone then false
  else if (jget d "value").isNone then false
  else
    match jget d "type" with
    | some (JVal.str t) => validateSelectorTyped d t
    | _ => false

/-- playwright_actions.selector_to_playwright_string. -/
def selector_to_playwright_string (d : JDict) : Except Str Str :=
  match jget d "type" with
  | some (JVal.str t) =>
    if t = "attributeValueSelector".data then
      let a := match jget d "attribute" with
               | some (JVal.str a) => a
               | _ => "id".data
      let v := match jget d "value" with
               | some (JVal.str v) => v
               | _ => []
      if a = "id".data then .ok ('#' :: v)
      else if a = "class".data then .ok ('.' :: v)
      else if a = "name".data then .ok ("[name=\x27".data ++ v ++ "\x27]".data)
      else .ok ('[' :: (a ++ ("=\x27".data ++ v ++ "\x27]".data)))
    else if t = "tagContainsSelector".data then
      .ok ("text=".data ++
        (match jget d "value" with | some (JVal.str v) => v | _ => []))
    else if t = "xpathSelector".data then
      .ok (match jget d "value" with | some (JVal.str v) => v | _ => [])
    else .error ("Unknown selector type: ".data ++ t)
  | _ => .error "Unknown selector type: None".data

/-- PlaywrightActionExecutor._execute_click up to the hand-off to the click
skill: the missing/falsy selector and invalid-format guards, then the
conversion to a Playwright selector string (the external click call itself is
outside the model, so the converted string is returned). -/
def executeClickGuard (action_data : JDict) : Except Str Str :=
  match jget action_data "selector" with
  | some (JVal.obj sel) =>
    if sel.isEmpty then .error "Selector is required for click action".data
    else if validate_selector sel then selector_to_playwright_string sel
    else .error "Invalid selector format".data
  | some v =>
    if jTruthy (some v) then .error "TypeError: selector is not a dict".data
    else .error "Selector is required for click action".data
  | none => .error "Selector is required for click action".data

/-- The validate_selector contract exactly as the claim states it. -/
def ValidateSelectorSpec (d : JDict) : Prop :=
  (∃ v, jget d "type" = some v) ∧ (∃ v, jget d "value" = some v) ∧
  ((jget d "type" = some (JVal.str "attributeValueSelector".data) ∧
     ∃ a, jget d "attribute" = some (JVal.str a) ∧
       (a = "id".data ∨ a = "class".data ∨ a = "name".data)) ∨
   (jget d "type" = some (JVal.str "xpathSelector".data) ∧
     ∃ v, jget d "value" = some (JVal.str v) ∧
       (("/".data).isPrefixOf v ∨ ("//".data).isPrefixOf v)) ∨
   jget d "type" = some (JVal.str "tagContainsSelector".data))

/-- The seven classifier attributes outside the executor allow-list. -/
def nonAllowListedAttrs : List Str :=
  ["type".data, "value".data, "placeholder".data, "title".data,
   "alt".data, "src".data, "href".data]

/-- C10: validate_selector returns True exactly under the stated conditions,
and every attributeValueSelector the classifier produces with an attribute
outside id/class/name is rejected by the executor click method with the
invalid-selector-format error. -/
theorem c10_validate_selector_contract :
    (∀ d : JDict, validate_selector d = true ↔ ValidateSelectorSpec d) ∧
    (∀ (l a v : Str), parseChars l = PData.attrVal a v →
      a ∈ nonAllowListedAttrs →
      executeClickGuard [("selector", JVal.obj (PData.attrVal a v).toData)] =
        .error "Invalid selector format".data) := by
  constructor
  · intro d
    constructor
    · intro hv
      unfold validate_selector at hv
      have hT : (jget d "type").isNone = false := by
        cases h : (jget d "type").isNone
        · rfl
        · rw [h] at hv; simp at hv
      have hV : (jget d "value").isNone = false := by
        cases h : (jget d "value").isNone
        · rfl
        · rw [hT, h] at hv; simp at hv
      rw [hT, hV] at hv
      simp only [Bool.false_eq_true, if_false] at hv
      obtain ⟨wv, hwv⟩ : ∃ v, jget d "value" = some v := by
        rcases h : jget d "value" with _ | w
        · rw [h] at hV; simp at hV
        · exact ⟨w, rfl⟩
      rcases hjt : jget d "type" with _ | w
      · rw [hjt] at hT; simp at hT
      rw [hjt] at hv
      refine ⟨⟨w, hjt⟩, ⟨wv, hwv⟩, ?_⟩
      rcases w with _ | t | n | q | b | o
      · simp at hv
      · change validateSelectorTyped d t = true at hv
        unfold validateSelectorTyped at hv
        by_cases h1 : t = "attributeValueSelector".data
        · subst h1
          rw [if_pos rfl] at hv
          rcases hja : jget d "attribute" with _ | w2
          · rw [hja] at hv; simp at hv
          rw [hja] at hv
          rcases w2 with _ | a | n2 | q2 | b2 | o2
          · simp at hv
          · simp only [Bool.or_eq_true, decide_eq_true_eq] at hv
            exact Or.inl ⟨hjt, a, rfl, by tauto⟩
          · simp at hv
          · simp at hv
          · simp at hv
          · simp at hv
        · rw [if_neg h1] at hv
          by_cases h2 : t = "tagContainsSelector".data
          · subst h2
            exact Or.inr (Or.inr hjt)
          · rw [if_neg h2] at hv
            by_cases h3 : t = "xpathSelector".data
            · subst h3
              rw [if_pos rfl, hwv] at hv
              rcases wv with _ | v | n2 | q2 | b2 | o2
              · simp at hv
              · simp only [Bool.or_eq_true] at hv
                exact Or.inr (Or.inl ⟨hjt, v, hwv, hv⟩)
              · simp at hv
              · simp at hv
              · simp at hv
              · simp at hv
            · rw [if_neg h3] at hv
              simp at hv
      · simp at hv
      · simp at hv
      · simp at hv
      · simp at hv
    · intro hs
      obtain ⟨⟨w1, hw1⟩, ⟨w2, hw2⟩, hcases⟩ := hs
      unfold validate_selector
      rcases hcases with ⟨hty, a, ha, hval⟩ | ⟨hty, v, hvv, hval⟩ | hty
      · rw [hty, hw2]
        simp only [Option.isNone_some, Bool.false_eq_true, if_false]
        change validateSelectorTyped d "attributeValueSelector".data = true
        unfold validateSelectorTyped
        rw [if_pos rfl, ha]
        rcases hval with h | h | h <;> simp [h]
      · rw [hty, hvv]
        simp only [Option.isNone_some, Bool.false_eq_true, if_false]
        change validateSelectorTyped d "xpathSelector".data = true
        unfold validateSelectorTyped
        rw [if_neg (by decide), if_neg (by decide), if_pos rfl, hvv]
        rcases hval with h | h <;> simp [h]
      · rw [hty, hw2]
        simp only [Option.isNone_some, Bool.false_eq_true, if_false]
        change validateSelectorTyped d "tagContainsSelector".data = true
        unfold validateSelectorTyped
        rw [if_neg (by decide), if_pos rfl]
  · intro l a v hparse hmem
    have hmem' : a = "type".data ∨ a = "value".data ∨ a = "placeholder".data ∨
        a = "title".data ∨ a = "alt".data ∨ a = "src".data ∨ a = "href".data := by
      simpa [nonAllowListedAttrs] using hmem
    have h1 : ¬ a = "id".data := by
      rcases hmem' with h | h | h | h | h | h | h <;> subst h <;> decide
    have h2 : ¬ a = "class".data := by
      rcases hmem' with h | h | h | h | h | h | h <;> subst h <;> decide
    have h3 : ¬ a = "name".data := by
      rcases hmem' with h | h | h | h | h | h | h <;> subst h <;> decide
    have hval : validate_selector (PData.attrVal a v).toData = false := by
      unfold validate_selector validateSelectorTyped PData.toData
      simp [jget, h1, h2, h3]
    have hne : ((PData.attrVal a v).toData).isEmpty = false := rfl
    simp [executeClickGuard, jget, hne, hval]

/-- Witness for C10: the classifier output for a placeholder attribute
selector is rejected by the executor click guard. -/
theorem c10_validate_selector_contract_witness :
    executeClickGuard
      [("selector",
        JVal.obj (PData.attrVal "placeholder".data "Enter name".data).toData)] =
      .error "Invalid selector format".data :=
  c10_validate_selector_contract.2 "[placeholder=\x22Enter name\x22]".data
    "placeholder".data "Enter name".data (by decide) (by decide)

/-- playwright_action_history.PlaywrightActionRecord. -/
structure PlaywrightActionRecord where
  timestamp : String
  action_type : String
  action_data : JDict
  url : String
  title : String
  success : Bool
  error_message : Option String := none
  session_id : Option String := none
  user_id : Option String := none
  execution_time_ms : Option Int := none
  screenshot_path : Option String := none
  page_state : Option String := none

/-- The Python slice lst[-n:]: for n ≥ 1 the last n elements, but for n = 0
the WHOLE list (lst[-0:] is lst[0:]). -/
def pySliceLast (n : Nat) (l : List α) : List α :=
  if n = 0 then l else l.drop (l.length - n)

/-- PlaywrightActionHistory.add_action on the history list: append the new
record, then trim with history[-max_history_size:] once the maximum is
exceeded (persistence of the resulting list is external).  The record itself
is built from the call arguments plus the externally supplied timestamp and
session id, so it enters the model fully constructed. -/
def PlaywrightActionHistory.add_action (max_history_size : Nat)
    (history : List PlaywrightActionRecord) (record : PlaywrightActionRecord) :
    List PlaywrightActionRecord :=
  let h := history ++ [record]
  if max_history_size < h.length then pySliceLast max_history_size h else h

/-- A concrete record for counterexamples and witnesses. -/
def sampleRecord : PlaywrightActionRecord :=
  { timestamp := "2024-01-01T00:00:00", action_type := "click",
    action_data := [], url := "https:example.com", title := "Example",
    success := true }

/-- C8 counterexample: with max_history_size = 0 the trim slice
history[-0:] is the whole list, so one append to an empty history leaves
1 > 0 records and the size bound is violated. -/
theorem c8_zero_max_size_not_enforced :
    (PlaywrightActionHistory.add_action 0 [] sampleRecord).length = 1 ∧
    ¬ (PlaywrightActionHistory.add_action 0 [] sampleRecord).length ≤ 0 :=
  ⟨rfl, by simp [PlaywrightActionHistory.add_action, pySliceLast]⟩

/-- Folding a sequence of appends starting from a history within bounds keeps
the last max elements, for any positive maximum. -/
theorem foldl_add_action (max : Nat) (hm : 1 ≤ max) :
    ∀ (rs : List PlaywrightActionRecord) (h : List PlaywrightActionRecord),
      h.length ≤ max →
      List.foldl (PlaywrightActionHistory.add_action max) h rs =
        (h ++ rs).drop (h.length + rs.length - max) := by
  intro rs
  induction rs with
  | nil =>
    intro h hh
    simp [Nat.sub_eq_zero_of_le hh]
  | cons r rs ih =>
    intro h hh
    rw [List.foldl_cons]
    by_cases hlt : h.length + 1 ≤ max
    · have hstep : PlaywrightActionHistory.add_action max h r = h ++ [r] := by
        have hng : ¬ max < (h ++ [r]).length := by
          simp only [List.length_append, List.length_cons, List.length_nil]
          omega
        simp only [PlaywrightActionHistory.add_action]
        rw [if_neg hng]
      rw [hstep, ih (h ++ [r])
        (by simp only [List.length_append, List.length_cons, List.length_nil]; omega)]
      simp only [List.append_assoc, List.singleton_append, List.length_append,
        List.length_cons, List.length_nil]
      congr 1
      omega
    · have hlen : h.length = max := by omega
      have hstep : PlaywrightActionHistory.add_action max h r =
          (h ++ [r]).drop 1 := by
        have h1 : max < (h ++ [r]).length := by
          simp only [List.length_append, List.length_cons, List.length_nil]
          omega
        have h2 : ¬ max = 0 := by omega
        have h3 : (h ++ [r]).length - max = 1 := by
          simp only [List.length_append, List.length_cons, List.length_nil]
          omega
        simp only [PlaywrightActionHistory.add_action, pySliceLast]
        rw [if_pos h1, if_neg h2, h3]
      rw [hstep, ih _
        (by simp only [List.length_drop, List.length_append, List.length_cons,
              List.length_nil]
            omega)]
      have hle : 1 ≤ (h ++ [r]).length := by
        simp only [List.length_append, List.length_cons, List.length_nil]
        omega
      have hdr : (h ++ [r]).drop 1 ++ rs = ((h ++ [r]) ++ rs).drop 1 :=
        (List.drop_append_of_le_length hle).symm
      rw [hdr, List.drop_drop, List.append_assoc, List.singleton_append]
      have hlen1 : ((h ++ [r]).drop 1).length = max := by
        simp only [List.length_drop, List.length_append, List.length_cons,
          List.length_nil]
        omega
      rw [hlen1]
      congr 1
      simp only [List.length_append, List.length_cons, List.length_nil]
      omega

/-- C8 (amended): for every positive max_history_size, each add_action call
leaves at most max_history_size records (from any starting history), and
appending max_history_size + k records to an empty history leaves exactly the
last max_history_size of them in append order, the oldest k dropped. -/
theorem c8_history_fifo_eviction (max : Nat) (hm : 1 ≤ max) :
    (∀ (h : List PlaywrightActionRecord) (r : PlaywrightActionRecord),
      (PlaywrightActionHistory.add_action max h r).length ≤ max) ∧
    (∀ (rs : List PlaywrightActionRecord) (k : Nat), rs.length = max + k →
      List.foldl (PlaywrightActionHistory.add_action max) [] rs = rs.drop k ∧
      (List.foldl (PlaywrightActionHistory.add_action max) [] rs).length = max) := by
  constructor
  · intro h r
    unfold PlaywrightActionHistory.add_action pySliceLast
    by_cases h1 : max < (h ++ [r]).length
    · have h2 : ¬ max = 0 := by omega
      simp only [h1, if_true, h2, if_false, List.length_drop]
      omega
    · simp only [h1, if_false]
      omega
  · intro rs k hk
    have hfold := foldl_add_action max hm rs [] (by simp)
    simp only [List.nil_append, List.length_nil, Nat.zero_add] at hfold
    have hsub : rs.length - max = k := by omega
    rw [hfold, hsub]
    exact ⟨rfl, by simp only [List.length_drop]; omega⟩

/-- Witness for C8 with max_history_size = 2 and three appends: the oldest
record is evicted, the two newest remain in order. -/
theorem c8_history_fifo_eviction_witness :
    List.foldl (PlaywrightActionHistory.add_action 2) []
      [sampleRecord, sampleRecord, sampleRecord] =
      [sampleRecord, sampleRecord, sampleRecord].drop 1 ∧
    (List.foldl (PlaywrightActionHistory.add_action 2) []
      [sampleRecord, sampleRecord, sampleRecord]).length = 2 :=
  (c8_history_fifo_eviction 2 (by decide)).2
    [sampleRecord, sampleRecord, sampleRecord] 1 rfl

/-- The two-tier result contract every interactive skill returns. -/
structure TwoTier where
  summary_message : Str
  detailed_message : Str
deriving DecidableEq

/-- Outcome of an awaited page.wait_for_selector call: an element handle, a
None return, or a raised exception (timeout). -/
inductive WaitRes where
  | found
  | retNone
  | raised (e : Str)
deriving DecidableEq

/-- The external collaborator behaviour visible to do_drag_and_drop: the two
attach waits, the diagnostics evaluation (none when it raises, in which case
both outer-HTML captures fall back to "<unavailable>"), the native drag_to
attempt (none = success, some e = raised), and the element lookups the
in-page fallback script would perform. -/
structure DragEnv where
  waitSource : WaitRes
  waitTarget : WaitRes
  diag : Option (Str × Str)
  primaryErr : Option Str
  domSource : Bool
  domTarget : Bool

/-- The guidance message of the outer exception handler of do_drag_and_drop. -/
def dragUnableMsg : Str :=
  ("Unable to complete drag-and-drop. Verify selectors using " ++
   "GET_DOM_WITH_CONTENT_TYPE(all_fields) and try again with correct " ++
   "selectors using Playwright\x27s native selectors: xpath, attribute " ++
   "selectors, or text-based selectors (tagContainsSelector).").data

/-- The two-tier shape of the outer exception handler. -/
def dragErrResult (e : Str) : TwoTier :=
  { summary_message := dragUnableMsg,
    detailed_message := dragUnableMsg ++ " Error: ".data ++ e }

/-- The ValueError message raised when a wait returns None. -/
def dragNotFoundMsg (srcFound tgtFound : Bool) (src tgt : Str) : Str :=
  "Element not found: source=".data ++ (if srcFound then src else "None".data) ++
    ", target=".data ++ (if tgtFound then tgt else "None".data)

/-- The return value of the in-page JavaScript fallback script of
do_drag_and_drop, were it ever executed: it independently looks up both
elements with document.querySelector and returns a descriptive string (it
never throws) - a not-found report, or the executed-drag report after
dispatching dragstart, dragenter, dragover, drop and dragend. -/
def jsDragFallback (env : DragEnv) (src tgt : Str) : Str :=
  if !env.domSource then
    "drag_and_drop: Source element ".data ++ src ++ " not found".data
  else if !env.domTarget then
    "drag_and_drop: Target element ".data ++ tgt ++ " not found".data
  else
    "Executed JavaScript drag-and-drop from ".data ++ src ++ " to ".data ++ tgt

/-- The outer-HTML diagnostics captured before the mutating step
("<unavailable>" for both when the capture raises). -/
def dragDiag (env : DragEnv) : Str × Str :=
  match env.diag with
  | some p => p
  | none => ("<unavailable>".data, "<unavailable>".data)

/-- The signature of the external Page.evaluate of Playwright,
evaluate(expression, arg=None): ONE argument slot after the expression.  The
other call sites of this repository use it that way (submit_form.py lines 181
and 216 pass a single selector argument). -/
def pageEvaluateArgSlots : Nat := 1

/-- The call site drag_and_drop.py line 183,
page.evaluate(js_code, source_selector, target_selector), passes TWO
arguments after the script. -/
def dragFallbackEvalArgs : Nat := 2

/-- The TypeError message Python raises for the surplus positional argument
(self, expression and arg make 2 to 3 positionals; the call supplies 4). -/
def evaluateArityErrMsg : Str :=
  "evaluate() takes from 2 to 3 positional arguments but 4 were given".data

/-- A Python call passing nargs positional arguments into the argument slots
of Page.evaluate: the in-page script runs (and its result is returned) only
when the slots suffice; otherwise the call raises TypeError before any
script executes. -/
def pageEvaluateCall (nargs : Nat) (inPageResult : Str) : Except Str Str :=
  if nargs ≤ pageEvaluateArgSlots then .ok inPageResult
  else .error evaluateArityErrMsg

/-- drag_and_drop.do_drag_and_drop: waits for both targets (terminal reported
failure when a wait raises or returns None), captures diagnostics, attempts
the native drag_to, and on its failure calls page.evaluate with the fallback
script and two selector arguments (line 183).  That call exceeds the single
argument slot of Page.evaluate, so it raises TypeError - the ok branch below
is unreachable - and the outer handler converts the exception into the
two-tier error shape, as it does every other raised exception. -/
def do_drag_and_drop (env : DragEnv) (src tgt : Str) : TwoTier :=
  match env.waitSource, env.waitTarget with
  | .raised e, _ => dragErrResult e
  | _, .raised e => dragErrResult e
  | .retNone, .retNone => dragErrResult (dragNotFoundMsg false false src tgt)
  | .retNone, .found => dragErrResult (dragNotFoundMsg false true src tgt)
  | .found, .retNone => dragErrResult (dragNotFoundMsg true false src tgt)
  | .found, .found =>
    let souter := (dragDiag env).1
    let touter := (dragDiag env).2
    match env.primaryErr with
    | none =>
      let msg := "Dragged element \x27".data ++ src ++
        "\x27 and dropped onto \x27".data ++ tgt ++
        "\x27 using Playwright drag_to.".data
      { summary_message := msg,
        detailed_message := msg ++ " Source outer HTML: ".data ++ souter ++
          ". Target outer HTML: ".data ++ touter ++ ".".data }
    | some _ =>
      match pageEvaluateCall dragFallbackEvalArgs (jsDragFallback env src tgt) with
      | .error e => dragErrResult e
      | .ok js =>
        { summary_message := js,
          detailed_message := js ++ " Source outer HTML: ".data ++ souter ++
            ". Target outer HTML: ".data ++ touter ++ ".".data }

set_option maxRecDepth 8192 in
/-- C6: evaluation of the code at the failing input.  The claim fails on the
code: whenever both attach waits succeed and the native drag_to attempt
raises, the fallback evaluate call - which passes two arguments into the
single argument slot of Page.evaluate - raises TypeError before the in-page
script can run, the outer handler returns the unable-to-complete message,
and the returned message neither mentions the JavaScript fallback nor is any
of the descriptive strings the fallback script would have produced. -/
theorem c6_fallback_never_runs (env : DragEnv) (src tgt : Str)
    (hs : env.waitSource = .found) (ht : env.waitTarget = .found)
    (e : Str) (hp : env.primaryErr = some e) :
    (∀ r : Str, pageEvaluateCall dragFallbackEvalArgs r =
      .error evaluateArityErrMsg) ∧
    do_drag_and_drop env src tgt = dragErrResult evaluateArityErrMsg ∧
    (do_drag_and_drop env src tgt).summary_message = dragUnableMsg ∧
    ¬ ("JavaScript".data <:+: (do_drag_and_drop env src tgt).summary_message) := by
  obtain ⟨ws, wt, diag, pe, ds, dt⟩ := env
  simp only at hs ht hp
  subst hs; subst ht; subst hp
  have h2 : do_drag_and_drop ⟨.found, .found, diag, some e, ds, dt⟩ src tgt =
      dragErrResult evaluateArityErrMsg := rfl
  refine ⟨fun r => rfl, h2, ?_, ?_⟩
  · rw [h2]
    rfl
  · rw [h2]
    decide

/-- Witness for C6 at a concrete environment where the waits succeed and
drag_to raises: the result is the outer-handler error message built from the
TypeError, and it does not mention the JavaScript fallback. -/
theorem c6_fallback_never_runs_witness :
    do_drag_and_drop
      ⟨.found, .found, some ("<div a>".data, "<div b>".data),
        some "boom".data, true, true⟩ "#a".data "#b".data =
      dragErrResult evaluateArityErrMsg ∧
    ¬ ("JavaScript".data <:+:
      (do_drag_and_drop
        ⟨.found, .found, some ("<div a>".data, "<div b>".data),
          some "boom".data, true, true⟩ "#a".data "#b".data).summary_message) := by
  obtain ⟨_, h2, _, h4⟩ := c6_fallback_never_runs
    ⟨.found, .found, some ("<div a>".data, "<div b>".data),
      some "boom".data, true, true⟩ "#a".data "#b".data
    rfl rfl "boom".data rfl
  exact ⟨h2, h4⟩

/-- Python truthiness of the dom_changes_detected variable (None before any
callback, otherwise the description string the callback delivered). -/
def pyTruthyStr : Option Str → Bool
  | none => false
  | some s => !s.isEmpty

/-- submit_form (wrapper, lines 59-61): the returned string is the success
message embedding the mutation description and the re-fetch directive when
the subscribed callback fired with a truthy description during the window,
and the detailed_message of the two-tier result otherwise. -/
def submit_form_result (result : TwoTier) (dom_changes_detected : Option Str) : Str :=
  if pyTruthyStr dom_changes_detected then
    "Success: ".data ++ result.summary_message ++
      (".\n As a consequence of this action, new elements have appeared " ++
       "in view: ").data ++ dom_changes_detected.getD [] ++
      (". This means that the form submission triggered page changes. " ++
       "Get all_fields DOM to see the updated page content.").data
  else result.detailed_message

/-- drag_and_drop (wrapper, lines 70-76): same shape, with the wording of the
re-fetch directive used by this skill. -/
def drag_and_drop_result (result : TwoTier) (dom_changes_detected : Option Str) : Str :=
  if pyTruthyStr dom_changes_detected then
    "Success: ".data ++ result.summary_message ++
      (".\nAs a consequence of this action, new elements have appeared " ++
       "in view: ").data ++ dom_changes_detected.getD [] ++
      ". Get all_fields DOM to continue the interaction if needed.".data
  else result.detailed_message

/-- select_option (wrapper, lines 68-70): same shape, embedding the value and
selector in the wording of the re-fetch directive used by this skill. -/
def select_option_result (result : TwoTier) (value selector : Str)
    (dom_changes_detected : Option Str) : Str :=
  if pyTruthyStr dom_changes_detected then
    "Success: ".data ++ result.summary_message ++
      (".\n As a consequence of this action, new elements have appeared " ++
       "in view: ").data ++ dom_changes_detected.getD [] ++
      ". This means that the action to select option ".data ++ value ++
      " from ".data ++ selector ++
      (" is not yet executed and needs further interaction. " ++
       "Get all_fields DOM to complete the interaction.").data
  else result.detailed_message

/-- The common re-fetch directive of all three skills. -/
def refetchDirective : Str := "Get all_fields DOM".data

/-- A value sandwiched between a prefix and a suffix is an infix. -/
theorem infix_sandwich (pre mid suf : Str) : mid <:+: (pre ++ mid ++ suf) :=
  ⟨pre, suf, by simp⟩

/-- An infix of the suffix of a concatenation is an infix of the whole. -/
theorem infix_of_suffix_part {mid suf : Str} (pre : Str) (h : mid <:+: suf) :
    mid <:+: (pre ++ suf) := by
  obtain ⟨a, b, hab⟩ := h
  exact ⟨pre ++ a, b, by rw [← hab]; simp⟩

set_option maxRecDepth 8192 in
/-- C7: for each of the three interactive skills, when the mutation callback
fired with a non-empty description the returned string contains that
description and the re-fetch directive; when it did not fire, the
detailed_message of the two-tier result is returned. -/
theorem c7_mutation_correlation (result : TwoTier) (s : Str) (hs : s ≠ [])
    (value selector : Str) :
    (s <:+: submit_form_result result (some s) ∧
     refetchDirective <:+: submit_form_result result (some s) ∧
     submit_form_result result none = result.detailed_message) ∧
    (s <:+: drag_and_drop_result result (some s) ∧
     refetchDirective <:+: drag_and_drop_result result (some s) ∧
     drag_and_drop_result result none = result.detailed_message) ∧
    (s <:+: select_option_result result value selector (some s) ∧
     refetchDirective <:+: select_option_result result value selector (some s) ∧
     select_option_result result value selector none = result.detailed_message) := by
  have hne : s.isEmpty = false := by
    cases h : s.isEmpty
    · rfl
    · exact absurd (List.isEmpty_iff.mp h) hs
  have htr : pyTruthyStr (some s) = true := by simp [pyTruthyStr, hne]
  refine ⟨⟨?_, ?_, rfl⟩, ⟨?_, ?_, rfl⟩, ⟨?_, ?_, rfl⟩⟩
  · unfold submit_form_result
    rw [htr, if_pos rfl]
    simp only [Option.getD_some, ← List.append_assoc]
    exact infix_sandwich _ _ _
  · unfold submit_form_result
    rw [htr, if_pos rfl]
    simp only [Option.getD_some]
    exact infix_of_suffix_part _ (by decide)
  · unfold drag_and_drop_result
    rw [htr, if_pos rfl]
    simp only [Option.getD_some, ← List.append_assoc]
    exact infix_sandwich _ _ _
  · unfold drag_and_drop_result
    rw [htr, if_pos rfl]
    simp only [Option.getD_some]
    exact infix_of_suffix_part _ (by decide)
  · unfold select_option_result
    rw [htr, if_pos rfl]
    simp only [Option.getD_some]
    refine ⟨"Success: ".data ++ result.summary_message ++
      (".\n As a consequence of this action, new elements have appeared " ++
       "in view: ").data,
      ". This means that the action to select option ".data ++ value ++
        " from ".data ++ selector ++
        (" is not yet executed and needs further interaction. " ++
         "Get all_fields DOM to complete the interaction.").data, ?_⟩
    simp [List.append_assoc]
  · unfold select_option_result
    rw [htr, if_pos rfl]
    simp only [Option.getD_some]
    exact infix_of_suffix_part _ (by decide)

/-- Witness for C7 at a concrete description string and result. -/
theorem c7_mutation_correlation_witness :
    "a new div appeared".data <:+:
      submit_form_result ⟨"submitted".data, "details".data⟩
        (some "a new div appeared".data) ∧
    refetchDirective <:+:
      submit_form_result ⟨"submitted".data, "details".data⟩
        (some "a new div appeared".data) ∧
    submit_form_result ⟨"submitted".data, "details".data⟩ none =
      "details".data := by
  obtain ⟨⟨h1, h2, h3⟩, _, _⟩ := c7_mutation_correlation
    ⟨"submitted".data, "details".data⟩ "a new div appeared".data (by decide)
    "v".data "#sel".data
  exact ⟨h1, h2, h3⟩

/-- The Python exception kinds the skill wrappers can raise. -/
inductive PyErr where
  | attributeError (cls attr : String)
  | valueError (msg : String)
  | unboundLocalError (name : String)
  | importError (name : String)
deriving DecidableEq

/-- The attributes defined on action_classes.DragAndDropAction (dataclass
fields, the inherited abstract interface, and its two classmethod
constructors). -/
def dragAndDropActionMembers : List String :=
  ["source_selector", "target_selector", "type", "selector", "to_dict",
   "from_dict", "from_strings"]

/-- The module-level names of action_classes.py (imported names and the
definitions of the module). -/
def actionClassesModuleNames : List String :=
  ["ABC", "abstractmethod", "dataclass", "field", "Optional", "Union", "Dict",
   "Any", "List", "Enum", "json", "parse_selector", "SelectorType", "Selector",
   "ActionType", "Action", "ClickAction", "DoubleClickAction", "NavigateAction",
   "TypeAction", "SelectAction", "HoverAction", "WaitAction", "ScrollAction",
   "SubmitAction", "DragAndDropAction", "ScreenshotAction",
   "GetDropDownOptionsAction", "SelectDropDownOptionAction", "ActionFactory",
   "action_to_json", "json_to_action", "actions_to_json", "json_to_actions"]

/-- The no-active-page precondition message of the skill wrappers. -/
def noActivePageMsg : String := "No active page found. OpenURL command opens a new page."

/-- The drag_and_drop skill wrapper (drag_and_drop.py lines 19-76).  Its very
first statement evaluates DragAndDropAction.from_strings_with_generator
(line 37), an attribute that does not exist on the class, so an
AttributeError is raised before the browser manager is even constructed;
even if the attribute existed, the local variable page is read there although
it is assigned only at line 47, which would raise UnboundLocalError.  The
no-active-page check (line 48) is therefore unreachable, whether or not a
page exists. -/
def drag_and_drop_skill (_pageExists : Bool) : Except PyErr Str :=
  if "from_strings_with_generator" ∈ dragAndDropActionMembers then
    .error (.unboundLocalError "page")
  else .error (.attributeError "DragAndDropAction" "from_strings_with_generator")

/-- The import statement of select_option.py line 15 names SelectOptionAction
in action_classes, but the module defines no such name, so importing
select_option raises ImportError and the skill can never run. -/
def select_option_module_import : Except PyErr Unit :=
  if "SelectOptionAction" ∈ actionClassesModuleNames then .ok ()
  else .error (.importError "SelectOptionAction")

/-- C5: evaluation of the code at the failing inputs.  Every invocation of
drag_and_drop raises an AttributeError - not the no-active-page ValueError -
whether a page exists or not, and select_option.py does not even import
(SelectOptionAction names nothing in action_classes.py); the claims
propagation policy is therefore violated by these two skills. -/
theorem c5_wrapper_exception_escapes :
    drag_and_drop_skill true =
      .error (.attributeError "DragAndDropAction" "from_strings_with_generator") ∧
    drag_and_drop_skill false =
      .error (.attributeError "DragAndDropAction" "from_strings_with_generator") ∧
    drag_and_drop_skill true ≠ .error (.valueError noActivePageMsg) ∧
    drag_and_drop_skill false ≠ .error (.valueError noActivePageMsg) ∧
    select_option_module_import = .error (.importError "SelectOptionAction") := by
  refine ⟨rfl, rfl, ?_, ?_, rfl⟩
  · intro h
    have h2 : drag_and_drop_skill true =
        .error (.attributeError "DragAndDropAction" "from_strings_with_generator") := rfl
    rw [h2] at h
    exact PyErr.noConfusion (Except.error.inj h)
  · intro h
    have h2 : drag_and_drop_skill false =
        .error (.attributeError "DragAndDropAction" "from_strings_with_generator") := rfl
    rw [h2] at h
    exact PyErr.noConfusion (Except.error.inj h)
